import Mathlib

/-!
Verification of the dependency-aware freshness diagnostic engine of the
Materialize MCP server, a shallow embedding of
`materialize_mcp_server/tools/monitor_data_freshness.py` and
`developers/mcp_materialize_developers/tools/object_freshness_diagnostics.py`.

The two tools run SQL against a read-only catalog snapshot (the tables
`mz_internal.mz_frontiers`, `mz_objects`, `mz_schemas`, `mz_clusters`,
`mz_internal.mz_compute_dependencies`) and post-process rows in Python.
The embedding models the snapshot as explicit row lists, `mz_now()` as a
fixed millisecond timestamp, SQL `numeric` millisecond arithmetic as `Int`
and second-valued lag columns as `Rat`.  The catalog tables are keyed by
id (one row per id), so equality joins against them are modelled as
`List.find?` lookups; the `WITH MUTUALLY RECURSIVE` fixpoints (which use
`UNION`, i.e. set semantics) are modelled as iteration of a deduplicating
step function run for enough rounds to cover every derivable triple.
`ORDER BY` is modelled by an insertion sort; `to_timestamp` renderings of
a frontier (the `*_time` columns) carry no information beyond the frontier
itself and are not materialised.
-/

/-- A row of `mz_internal.mz_frontiers`: write frontier in milliseconds. -/
structure FrontierRow where
  object_id : String
  write_frontier : Int
deriving DecidableEq, Repr

/-- A row of `mz_objects`. -/
structure MzObject where
  id : String
  name : String
  schema_id : String
  otype : String
  cluster_id : Option String
deriving DecidableEq, Repr

/-- A row of `mz_schemas`. -/
structure MzSchema where
  id : String
  name : String
deriving DecidableEq, Repr

/-- A row of `mz_clusters`. -/
structure MzCluster where
  id : String
  name : String
deriving DecidableEq, Repr

/-- A row of `mz_internal.mz_compute_dependencies`: `object_id` depends on
`dependency_id`. -/
structure DependencyRow where
  object_id : String
  dependency_id : String
deriving DecidableEq, Repr

/-- The read-only catalog snapshot both tools query, together with the value
of `mz_now()` in milliseconds. -/
structure Snapshot where
  frontiers : List FrontierRow
  objects : List MzObject
  schemas : List MzSchema
  clusters : List MzCluster
  deps : List DependencyRow
  now_ms : Int
deriving DecidableEq, Repr

/-- `input_of (source, target)`: `SELECT dependency_id, object_id FROM
mz_internal.mz_compute_dependencies` — the target depends on the source. -/
def inputOf (snap : Snapshot) : List (String × String) :=
  snap.deps.map (fun d => (d.dependency_id, d.object_id))

/-- Lookup of an object's frontier (`mz_frontiers` is keyed by object id). -/
def frontierOf (snap : Snapshot) (oid : String) : Option Int :=
  (snap.frontiers.find? (fun f => f.object_id == oid)).map (fun f => f.write_frontier)

/-- Lookup of a schema name by schema id. -/
def schemaNameOf (snap : Snapshot) (sid : String) : Option String :=
  (snap.schemas.find? (fun s => s.id == sid)).map (fun s => s.name)

/-- Lookup of a cluster name by (nullable) cluster id, as the
`LEFT JOIN mz_clusters` produces. -/
def clusterNameOf (snap : Snapshot) (cid : Option String) : Option String :=
  cid.bind (fun c => (snap.clusters.find? (fun cl => cl.id == c)).map (fun cl => cl.name))

/-- Lookup of an object's name, as the `LEFT JOIN mz_objects` produces. -/
def objNameOf (snap : Snapshot) (oid : String) : Option String :=
  (snap.objects.find? (fun o => o.id == oid)).map (fun o => o.name)

/-- Lookup of an object's type, as the `LEFT JOIN mz_objects` produces. -/
def objTypeOf (snap : Snapshot) (oid : String) : Option String :=
  (snap.objects.find? (fun o => o.id == oid)).map (fun o => o.otype)

/-- `EXTRACT(EPOCH FROM (mz_now()::timestamp - to_timestamp(write_frontier / 1000)))`
for an object, in seconds; `none` when the object has no frontier row. -/
def lagSecondsOf (snap : Snapshot) (oid : String) : Option ℚ :=
  (frontierOf snap oid).map (fun wf => ((snap.now_ms : ℚ) - (wf : ℚ)) / 1000)

/-- Append the elements of `xs` to `cur`, skipping elements already present:
the `UNION` set semantics of the recursive CTEs. -/
def insertNew [DecidableEq α] (cur : List α) (xs : List α) : List α :=
  xs.foldl (fun acc x => if x ∈ acc then acc else acc ++ [x]) cur

/-- Insert `x` into `l` in front of the first element `y` with `le x y`. -/
def insertBy (le : α → α → Bool) (x : α) : List α → List α
  | [] => [x]
  | y :: ys => if le x y then x :: y :: ys else y :: insertBy le x ys

/-- Insertion sort by the comparison `le`, modelling `ORDER BY`. -/
def sortBy (le : α → α → Bool) (l : List α) : List α :=
  l.foldr (insertBy le) []

/-- A triple of the monitor tool's recursive CTE `depends_on(probe, prev, next)`. -/
abbrev MTriple := String × String × String

/-- A triple of the single-object tool's recursive CTE
`depends_on(prev, next, depth)`. -/
abbrev OTriple := String × String × Nat

/-- One round of the monitor tool's recursive CTE:
`SELECT depends_on.probe, input_of.source, input_of.target
 FROM input_of, depends_on WHERE depends_on.prev = input_of.target`,
unioned (set semantics) into the triples derived so far. -/
def monitorStep (edges : List (String × String)) (cur : List MTriple) : List MTriple :=
  insertNew cur
    (cur.flatMap (fun tr =>
      (edges.filter (fun e => e.2 == tr.2.1)).map (fun e => (tr.1, e.1, e.2))))

/-- The fixpoint of the monitor tool's `WITH MUTUALLY RECURSIVE depends_on`
CTE, seeded with `SELECT id, id, id FROM probes`.  Every derivable triple is
`(p, p, p)` for a probe `p` or `(p, s, t)` for an edge `(s, t)`, so
`ps.length * (edges.length + 1)` bounds the fixpoint's size and one step per
possible triple reaches it. -/
def monitorDependsOn (edges : List (String × String)) (ps : List String) : List MTriple :=
  (monitorStep edges)^[ps.length * (edges.length + 1) + 1]
    (insertNew [] (ps.map (fun p => (p, p, p))))

/-- One round of the single-object tool's recursive CTE:
`SELECT input_of.source, depends_on.prev, depends_on.depth + 1
 FROM input_of, depends_on
 WHERE depends_on.prev = input_of.target AND depends_on.depth < 10`,
with the depth bound `maxDepth` in place of the literal `10`. -/
def objStep (edges : List (String × String)) (maxDepth : Nat) (cur : List OTriple) : List OTriple :=
  insertNew cur
    (cur.flatMap (fun tr =>
      if tr.2.2 < maxDepth then
        (edges.filter (fun e => e.2 == tr.1)).map (fun e => (e.1, tr.1, tr.2.2 + 1))
      else []))

/-- The fixpoint of the single-object tool's `depends_on` CTE with depth bound
`maxDepth`, seeded with `SELECT %s, %s, 0` for the target id.  Each round
derives the triples of the next depth, so `maxDepth + 1` rounds reach the
fixpoint. -/
def objDependsOnCap (maxDepth : Nat) (edges : List (String × String)) (target : String) :
    List OTriple :=
  (objStep edges maxDepth)^[maxDepth + 1] [(target, target, 0)]

/-- The single-object tool's CTE as written in the source, whose depth bound
is the literal `10` (`AND depends_on.depth < 10  -- Prevent infinite recursion`). -/
def objDependsOn (edges : List (String × String)) (target : String) : List OTriple :=
  objDependsOnCap 10 edges target

/-- `object_id LIKE 'u%'`: the id's first character is `u` (user-created
objects). -/
def startsWithU (s : String) : Bool :=
  s.data.head? == some 'u'

/-- The shared probe condition of the monitor tool's three queries:
`write_frontier > 0 AND mz_now() > to_timestamp(write_frontier / 1000)
 + INTERVAL '1 second' * threshold_seconds AND object_id LIKE 'u%'`. -/
def probeCond (snap : Snapshot) (threshold_seconds : ℚ) (f : FrontierRow) : Bool :=
  decide (0 < f.write_frontier)
    && decide ((f.write_frontier : ℚ) + 1000 * threshold_seconds < (snap.now_ms : ℚ))
    && startsWithU f.object_id

/-- The `probes(id)` CTE: ids of frontier rows meeting the probe condition. -/
def probesOf (snap : Snapshot) (threshold_seconds : ℚ) : List String :=
  (snap.frontiers.filter (probeCond snap threshold_seconds)).map (fun f => f.object_id)

/-- The monitor tool's `depends_on` triples for the given threshold. -/
def monitorTriples (snap : Snapshot) (threshold_seconds : ℚ) : List MTriple :=
  monitorDependsOn (inputOf snap) (probesOf snap threshold_seconds)

/-- An element of the monitor report's `lagging_objects` list. -/
structure LaggingObject where
  object_id : String
  object_name : String
  schema_name : String
  object_type : String
  cluster_name : Option String
  write_frontier : Int
  lag_seconds : ℚ
  lag_ms : Option ℚ
  threshold_seconds : ℚ
deriving DecidableEq, Repr

/-- `AND s.name = %s` when a schema filter is supplied (`if schema:`). -/
def schemaFilterOk (sf : Option String) (sname : String) : Bool :=
  match sf with
  | none => true
  | some v => sname == v

/-- `AND c.name = %s` when a cluster filter is supplied; the comparison with a
`NULL` cluster name from the `LEFT JOIN` is never true. -/
def clusterFilterOk (cf : Option String) (cname : Option String) : Bool :=
  match cf with
  | none => true
  | some v => cname == some v

/-- One row of the monitor tool's lagging-objects query, for one frontier row:
the joins to `mz_objects` and `mz_schemas` are inner, the join to
`mz_clusters` is a `LEFT JOIN`, and the Python loop turns a falsy
`lag_seconds` into a `None` `lag_ms`. -/
def laggingRowOf (snap : Snapshot) (threshold_seconds : ℚ) (sf cf : Option String)
    (f : FrontierRow) : Option LaggingObject :=
  match snap.objects.find? (fun o => o.id == f.object_id) with
  | none => none
  | some o =>
    match snap.schemas.find? (fun s => s.id == o.schema_id) with
    | none => none
    | some s =>
      let cn := clusterNameOf snap o.cluster_id
      let lagSec : ℚ := ((snap.now_ms : ℚ) - (f.write_frontier : ℚ)) / 1000
      if probeCond snap threshold_seconds f && schemaFilterOk sf s.name
          && clusterFilterOk cf cn then
        some { object_id := f.object_id, object_name := o.name, schema_name := s.name,
               object_type := o.otype, cluster_name := cn,
               write_frontier := f.write_frontier, lag_seconds := lagSec,
               lag_ms := if lagSec = 0 then none else some (lagSec * 1000),
               threshold_seconds := threshold_seconds }
      else none

/-- The monitor report's `lagging_objects`, `ORDER BY lag_seconds DESC`. -/
def laggingObjects (snap : Snapshot) (threshold_seconds : ℚ) (sf cf : Option String) :
    List LaggingObject :=
  sortBy (fun a b => decide (b.lag_seconds ≤ a.lag_seconds))
    (snap.frontiers.filterMap (laggingRowOf snap threshold_seconds sf cf))

/-- An element of the monitor report's `dependency_chains` list. -/
structure ChainRecord where
  probe_id : String
  dependency_id : String
  dependent_id : String
  dependency_name : Option String
  dependent_name : Option String
  dependency_type : Option String
  dependent_type : Option String
deriving DecidableEq, Repr

/-- The row the monitor tool's dependency query selects for one `depends_on`
triple (names and types via `LEFT JOIN mz_objects`). -/
def toChainRecord (snap : Snapshot) (tr : MTriple) : ChainRecord :=
  { probe_id := tr.1, dependency_id := tr.2.1, dependent_id := tr.2.2,
    dependency_name := objNameOf snap tr.2.1, dependent_name := objNameOf snap tr.2.2,
    dependency_type := objTypeOf snap tr.2.1, dependent_type := objTypeOf snap tr.2.2 }

/-- Lexicographic comparison of character lists (the collation used for
`ORDER BY` over id columns). -/
def charListLe : List Char → List Char → Bool
  | [], _ => true
  | _ :: _, [] => false
  | a :: as, b :: bs => if a = b then charListLe as bs else decide (a < b)

/-- String comparison by character list. -/
def strLe (a b : String) : Bool := charListLe a.data b.data

/-- String-triple lexicographic comparison for `ORDER BY probe, prev, next`. -/
def chainRecLe (a b : ChainRecord) : Bool :=
  if a.probe_id == b.probe_id then
    if a.dependency_id == b.dependency_id then strLe a.dependent_id b.dependent_id
    else strLe a.dependency_id b.dependency_id
  else strLe a.probe_id b.probe_id

/-- The monitor report's `dependency_chains`: the `depends_on` fixpoint with
`WHERE probe != next`, joined to `mz_objects`, `ORDER BY probe, prev, next`. -/
def dependencyChains (snap : Snapshot) (threshold_seconds : ℚ) : List ChainRecord :=
  sortBy chainRecLe
    (((monitorTriples snap threshold_seconds).filter
        (fun tr => tr.1 ≠ tr.2.2)).map (toChainRecord snap))

/-- An element of the monitor report's `critical_paths` list. -/
structure CriticalPathRecord where
  probe_id : String
  source_id : String
  target_id : String
  source_name : Option String
  target_name : Option String
  source_type : Option String
  target_type : Option String
  lag_ms : Int
  lag_seconds : ℚ
deriving DecidableEq, Repr

/-- The monitor tool's critical-path row for one `depends_on` triple:
`WHERE probe != prev AND depends_on.next = fn.object_id AND
 depends_on.prev = fp.object_id AND fp.write_frontier > fn.write_frontier`,
with `lag_ms = fp.write_frontier - fn.write_frontier`. -/
def criticalEdgeOf (snap : Snapshot) (tr : MTriple) : Option CriticalPathRecord :=
  if tr.1 ≠ tr.2.1 then
    match frontierOf snap tr.2.2, frontierOf snap tr.2.1 with
    | some fn, some fp =>
      if fn < fp then
        some { probe_id := tr.1, source_id := tr.2.1, target_id := tr.2.2,
               source_name := objNameOf snap tr.2.1, target_name := objNameOf snap tr.2.2,
               source_type := objTypeOf snap tr.2.1, target_type := objTypeOf snap tr.2.2,
               lag_ms := fp - fn, lag_seconds := ((fp - fn : Int) : ℚ) / 1000 }
      else none
    | _, _ => none
  else none

/-- The monitor report's `critical_paths`, `ORDER BY lag_ms DESC`. -/
def criticalPaths (snap : Snapshot) (threshold_seconds : ℚ) : List CriticalPathRecord :=
  sortBy (fun a b => decide (b.lag_ms ≤ a.lag_ms))
    ((monitorTriples snap threshold_seconds).filterMap (criticalEdgeOf snap))

/-- The monitor tool's result dictionary. -/
structure MonitorReport where
  lagging_objects : List LaggingObject
  dependency_chains : List ChainRecord
  critical_paths : List CriticalPathRecord
deriving DecidableEq, Repr

/-- `MonitorDataFreshness.__call__`: the three queries of
`monitor_data_freshness` against one snapshot.  The schema and cluster
filters apply only to the lagging-objects query; the dependency and
critical-path queries derive their probes from the threshold alone, exactly
as in the source. -/
def monitor_data_freshness (snap : Snapshot) (threshold_seconds : ℚ)
    (schema cluster : Option String) : MonitorReport :=
  { lagging_objects := laggingObjects snap threshold_seconds schema cluster,
    dependency_chains := dependencyChains snap threshold_seconds,
    critical_paths := criticalPaths snap threshold_seconds }

/-- One side (dependency or dependent) of a dependency-chain entry of the
single-object report, with the lag fields the Python loop computes
(`row[...] or 0`, `* 1000`, `> 100`). -/
structure NodeInfo where
  object_id : String
  name : Option String
  otype : Option String
  schema : Option String
  cluster : Option String
  write_frontier : Option Int
  lag_seconds : ℚ
  lag_ms : ℚ
  is_stale : Bool
deriving DecidableEq, Repr

/-- The node record built for the object id `oid` of a chain row: metadata via
the `LEFT JOIN`s, lag via `or 0` on the possibly-`NULL` epoch extraction. -/
def nodeInfoOf (snap : Snapshot) (oid : String) : NodeInfo :=
  let obj := snap.objects.find? (fun o => o.id == oid)
  let ls : ℚ := (lagSecondsOf snap oid).getD 0
  { object_id := oid,
    name := obj.map (fun o => o.name),
    otype := obj.map (fun o => o.otype),
    schema := obj.bind (fun o => schemaNameOf snap o.schema_id),
    cluster := obj.bind (fun o => clusterNameOf snap o.cluster_id),
    write_frontier := frontierOf snap oid,
    lag_seconds := ls,
    lag_ms := ls * 1000,
    is_stale := decide (100 < ls * 1000) }

/-- An element of the single-object report's `dependency_chain`. -/
structure ChainEntry where
  depth : Nat
  dependency : NodeInfo
  dependent : NodeInfo
deriving DecidableEq, Repr

/-- The chain entry the Python loop appends for one `depends_on` triple. -/
def toChainEntry (snap : Snapshot) (tr : OTriple) : ChainEntry :=
  { depth := tr.2.2,
    dependency := nodeInfoOf snap tr.1,
    dependent := nodeInfoOf snap tr.2.1 }

/-- `ORDER BY depends_on.depth, depends_on.prev, depends_on.next`. -/
def oTripleLe (a b : OTriple) : Bool :=
  if a.2.2 == b.2.2 then
    if a.1 == b.1 then strLe a.2.1 b.2.1 else strLe a.1 b.1
  else a.2.2 ≤ b.2.2

/-- The `depends_on` rows the single-object dependency query returns for the
target id: the fixpoint with `WHERE depends_on.prev != depends_on.next`
(`SELECT DISTINCT` is inherent, the fixpoint being a set), ordered by
(depth, prev, next). -/
def chainRowsOf (snap : Snapshot) (target_id : String) : List OTriple :=
  sortBy oTripleLe
    ((objDependsOn (inputOf snap) target_id).filter (fun tr => tr.1 ≠ tr.2.1))

/-- The single-object report's `dependency_chain` for the target id. -/
def dependencyChainOf (snap : Snapshot) (target_id : String) : List ChainEntry :=
  (chainRowsOf snap target_id).map (toChainEntry snap)

/-- The single-object report's `target_object` record. -/
structure TargetObject where
  object_id : Option String
  object_name : String
  schema_name : Option String
  object_type : String
  cluster_name : Option String
  write_frontier : Option Int
  lag_seconds : Option ℚ
  lag_ms : ℚ
  is_stale : Bool
deriving DecidableEq, Repr

/-- The single-object report's `freshness_summary`. -/
structure FreshnessSummary where
  total_dependencies : Nat
  stale_dependencies : Nat
  max_lag_seconds : ℚ
  critical_path_lag_seconds : ℚ
deriving DecidableEq, Repr

/-- `ObjectFreshnessDiagnostics.__call__`'s non-error result dictionary. -/
structure ObjectDiagnosticReport where
  target_object : TargetObject
  dependency_chain : List ChainEntry
  freshness_summary : FreshnessSummary
deriving DecidableEq, Repr

/-- The result of `object_freshness_diagnostics`: either the not-found error
dictionary or a populated report. -/
inductive OfdResult where
  | error (msg : String)
  | report (r : ObjectDiagnosticReport)
deriving DecidableEq, Repr

/-- Whether an `OfdResult` is a populated report. -/
def OfdResult.isReport : OfdResult → Bool
  | .report _ => true
  | .error _ => false

/-- The dependency chain of an `OfdResult` (empty for the error case). -/
def OfdResult.chain : OfdResult → List ChainEntry
  | .report r => r.dependency_chain
  | .error _ => []

/-- The target-row lookup of the single-object tool:
`FROM mz_objects o JOIN mz_schemas s ON o.schema_id = s.id
 WHERE o.name = %s AND s.name = %s LIMIT 1`. -/
def findTarget (snap : Snapshot) (object_name schema : String) : Option MzObject :=
  snap.objects.find? (fun o =>
    o.name == object_name && schemaNameOf snap o.schema_id == some schema)

/-- The target's frontier row from the `LEFT JOIN mz_internal.mz_frontiers`. -/
def targetFrontierRow (snap : Snapshot) (o : MzObject) : Option FrontierRow :=
  snap.frontiers.find? (fun f => f.object_id == o.id)

/-- The target's `lag_seconds` column (`NULL` when it has no frontier row). -/
def targetLagSeconds (snap : Snapshot) (o : MzObject) : Option ℚ :=
  (targetFrontierRow snap o).map (fun f => ((snap.now_ms : ℚ) - (f.write_frontier : ℚ)) / 1000)

/-- `lag_ms = target_row["lag_seconds"] * 1000 if target_row["lag_seconds"] else 0`:
a falsy (`NULL` or zero) lag maps to 0. -/
def targetLagMs (snap : Snapshot) (o : MzObject) : ℚ :=
  match targetLagSeconds snap o with
  | none => 0
  | some l => if l = 0 then 0 else l * 1000

/-- The dependency chain of the target.  The query's seed is
`target_row["object_id"]`, the `f.object_id` of the `LEFT JOIN`, so it is
`NULL` when the target has no frontier row; a `NULL` seed satisfies neither
the recursive join condition nor `prev != next`, so the chain is empty in
that case. -/
def targetChain (snap : Snapshot) (o : MzObject) : List ChainEntry :=
  match targetFrontierRow snap o with
  | none => []
  | some f => dependencyChainOf snap f.object_id

/-- `max_lag = max(max_lag, dep_lag_seconds, dependent_lag_seconds)` folded
over the chain rows, starting from 0. -/
def maxLagOf (chain : List ChainEntry) : ℚ :=
  chain.foldl (fun acc e => max acc (max e.dependency.lag_seconds e.dependent.lag_seconds)) 0

/-- The report built once the target row is found.  The Python loop counts
rows (`total_count`), counts stale dependency sides (`stale_count`), and
keeps the running lag maximum; `critical_path_lag_seconds` is assigned the
same maximum (`# For now, use max lag as critical path`). -/
def reportFor (snap : Snapshot) (o : MzObject) : ObjectDiagnosticReport :=
  { target_object :=
      { object_id := (targetFrontierRow snap o).map (fun f => f.object_id),
        object_name := o.name,
        schema_name := schemaNameOf snap o.schema_id,
        object_type := o.otype,
        cluster_name := clusterNameOf snap o.cluster_id,
        write_frontier := (targetFrontierRow snap o).map (fun f => f.write_frontier),
        lag_seconds := targetLagSeconds snap o,
        lag_ms := targetLagMs snap o,
        is_stale := decide (100 < targetLagMs snap o) },
    dependency_chain := targetChain snap o,
    freshness_summary :=
      { total_dependencies := (targetChain snap o).length,
        stale_dependencies := (targetChain snap o).countP (fun e => e.dependency.is_stale),
        max_lag_seconds := maxLagOf (targetChain snap o),
        critical_path_lag_seconds := maxLagOf (targetChain snap o) } }

/-- `ObjectFreshnessDiagnostics.__call__`: resolve the target by name and
schema; absent targets yield exactly the error dictionary
`{"error": f"Object '<name>' not found in schema '<schema>'"}`. -/
def object_freshness_diagnostics (snap : Snapshot) (object_name schema : String) : OfdResult :=
  match findTarget snap object_name schema with
  | none =>
    .error ("Object \x27" ++ object_name ++ "\x27 not found in schema \x27" ++ schema ++ "\x27")
  | some o => .report (reportFor snap o)

/-- A snapshot with a lagging view `u1` reading from a fresher source `u2`:
the view's frontier (5000) trails its dependency's (9000) at `now = 10000`. -/
def snapCp : Snapshot :=
  { frontiers := [⟨"u1", 5000⟩, ⟨"u2", 9000⟩],
    objects := [⟨"u1", "v1", "s1", "materialized-view", none⟩,
                ⟨"u2", "src1", "s1", "source", none⟩],
    schemas := [⟨"s1", "public"⟩],
    clusters := [],
    deps := [⟨"u1", "u2"⟩],
    now_ms := 10000 }

/-- The critical-path row `monitor_data_freshness` emits on `snapCp`. -/
def cpRec : CriticalPathRecord :=
  { probe_id := "u1", source_id := "u2", target_id := "u1",
    source_name := some "src1", target_name := some "v1",
    source_type := some "source", target_type := some "materialized-view",
    lag_ms := 4000, lag_seconds := 4 }

/-- The scenario of the spec's worked example: edges Source→ViewA→ViewB with
frontiers 1000 ms, 500 ms and 50 ms behind `now`. -/
def snapScenario : Snapshot :=
  { frontiers := [⟨"u1", 999000⟩, ⟨"u2", 999500⟩, ⟨"u3", 999950⟩],
    objects := [⟨"u1", "source_tbl", "s1", "source", none⟩,
                ⟨"u2", "view_a", "s1", "materialized-view", none⟩,
                ⟨"u3", "view_b", "s1", "materialized-view", none⟩],
    schemas := [⟨"s1", "public"⟩],
    clusters := [],
    deps := [⟨"u2", "u1"⟩, ⟨"u3", "u2"⟩],
    now_ms := 1000000 }

/-- A linear dependency chain of twelve edges `u1 → u2 → ... → u13`, with the
bottom object `u13` lagging. -/
def snapChain12 : Snapshot :=
  { frontiers := [⟨"u13", 1000⟩],
    objects := [], schemas := [], clusters := [],
    deps := [⟨"u2", "u1"⟩, ⟨"u3", "u2"⟩, ⟨"u4", "u3"⟩, ⟨"u5", "u4"⟩,
             ⟨"u6", "u5"⟩, ⟨"u7", "u6"⟩, ⟨"u8", "u7"⟩, ⟨"u9", "u8"⟩,
             ⟨"u10", "u9"⟩, ⟨"u11", "u10"⟩, ⟨"u12", "u11"⟩, ⟨"u13", "u12"⟩],
    now_ms := 1000000 }

/-- The chain row of `snapChain12` that lies twelve edges above the probe. -/
def chainRec12 : ChainRecord :=
  { probe_id := "u13", dependency_id := "u1", dependent_id := "u2",
    dependency_name := none, dependent_name := none,
    dependency_type := none, dependent_type := none }

/-- A synthetic dependency cycle `u1 → u2 → u3 → u1` with `u1` lagging. -/
def snapCyc : Snapshot :=
  { frontiers := [⟨"u1", 5000⟩],
    objects := [], schemas := [], clusters := [],
    deps := [⟨"u2", "u1"⟩, ⟨"u3", "u2"⟩, ⟨"u1", "u3"⟩],
    now_ms := 10000 }

/-- A diamond with a tail: the target `u4` reads `u2` and `u3`, `u3` reads
`u2`, and `u2` reads `u1`, so `u1 → u2` is reachable at depths 2 and 3. -/
def snapDiamond : Snapshot :=
  { frontiers := [⟨"u4", 9000⟩],
    objects := [⟨"u4", "x", "s1", "materialized-view", none⟩],
    schemas := [⟨"s1", "public"⟩],
    clusters := [],
    deps := [⟨"u4", "u2"⟩, ⟨"u4", "u3"⟩, ⟨"u3", "u2"⟩, ⟨"u2", "u1"⟩],
    now_ms := 10000 }

/-- A view `u5` with a frontier whose direct dependency `u4` has no frontier
row in the snapshot. -/
def snapNoFrontier : Snapshot :=
  { frontiers := [⟨"u5", 9000⟩],
    objects := [⟨"u5", "v", "s1", "materialized-view", none⟩,
                ⟨"u4", "base", "s1", "source", none⟩],
    schemas := [⟨"s1", "public"⟩],
    clusters := [],
    deps := [⟨"u5", "u4"⟩],
    now_ms := 10000 }

/-- The empty snapshot. -/
def snapEmpty : Snapshot :=
  { frontiers := [], objects := [], schemas := [], clusters := [], deps := [], now_ms := 0 }

/-- The catalog row of the target view `v` of `snapNoFrontier`. -/
def objViewV : MzObject := ⟨"u5", "v", "s1", "materialized-view", none⟩

theorem mem_insertNew [DecidableEq α] (cur xs : List α) (a : α) :
    a ∈ insertNew cur xs ↔ a ∈ cur ∨ a ∈ xs := by
  induction xs generalizing cur with
  | nil => simp [insertNew]
  | cons x xs ih =>
    show a ∈ insertNew (if x ∈ cur then cur else cur ++ [x]) xs ↔ _
    rw [ih]
    by_cases hx : x ∈ cur
    · rw [if_pos hx]
      simp only [List.mem_cons]
      constructor
      · rintro (h | h)
        · exact Or.inl h
        · exact Or.inr (Or.inr h)
      · rintro (h | rfl | h)
        · exact Or.inl h
        · exact Or.inl hx
        · exact Or.inr h
    · rw [if_neg hx]
      simp only [List.mem_append, List.mem_cons, List.not_mem_nil, or_false]
      constructor
      · rintro ((h | h) | h)
        · exact Or.inl h
        · exact Or.inr (Or.inl h)
        · exact Or.inr (Or.inr h)
      · rintro (h | h | h)
        · exact Or.inl (Or.inl h)
        · exact Or.inl (Or.inr h)
        · exact Or.inr h

theorem nodup_insertNew [DecidableEq α] (cur xs : List α) (h : cur.Nodup) :
    (insertNew cur xs).Nodup := by
  induction xs generalizing cur with
  | nil => exact h
  | cons x xs ih =>
    show (insertNew (if x ∈ cur then cur else cur ++ [x]) xs).Nodup
    apply ih
    by_cases hx : x ∈ cur
    · rwa [if_pos hx]
    · rw [if_neg hx]
      simp only [List.nodup_append, List.nodup_singleton, List.disjoint_singleton]
      exact ⟨h, trivial, hx⟩

theorem iterate_inv (f : α → α) (P : α → Prop) (hf : ∀ a, P a → P (f a)) :
    ∀ n a, P a → P (f^[n] a) := by
  intro n
  induction n with
  | zero => intro a ha; simpa
  | succ n ih => intro a ha; exact ih (f a) (hf a ha)

theorem perm_insertBy (le : α → α → Bool) (x : α) (l : List α) :
    List.Perm (insertBy le x l) (x :: l) := by
  induction l with
  | nil => exact List.Perm.refl _
  | cons y ys ih =>
    show List.Perm (if le x y then x :: y :: ys else y :: insertBy le x ys) (x :: y :: ys)
    split
    · exact List.Perm.refl _
    · exact (ih.cons y).trans (List.Perm.swap x y ys)

theorem perm_sortBy (le : α → α → Bool) (l : List α) : List.Perm (sortBy le l) l := by
  induction l with
  | nil => exact List.Perm.refl _
  | cons x xs ih =>
    show List.Perm (insertBy le x (sortBy le xs)) (x :: xs)
    exact (perm_insertBy le x (sortBy le xs)).trans (ih.cons x)

theorem mem_sortBy (le : α → α → Bool) (l : List α) (a : α) :
    a ∈ sortBy le l ↔ a ∈ l :=
  (perm_sortBy le l).mem_iff

theorem length_sortBy (le : α → α → Bool) (l : List α) :
    (sortBy le l).length = l.length :=
  (perm_sortBy le l).length_eq

theorem nodup_sortBy (le : α → α → Bool) (l : List α) (h : l.Nodup) :
    (sortBy le l).Nodup :=
  ((perm_sortBy le l).nodup_iff).mpr h

theorem nodup_monitorDependsOn (edges : List (String × String)) (ps : List String) :
    (monitorDependsOn edges ps).Nodup :=
  iterate_inv (monitorStep edges) (fun l => l.Nodup)
    (fun a ha => nodup_insertNew a _ ha) _ _
    (nodup_insertNew [] _ List.nodup_nil)

theorem nodup_objDependsOnCap (cap : Nat) (edges : List (String × String)) (target : String) :
    (objDependsOnCap cap edges target).Nodup :=
  iterate_inv (objStep edges cap) (fun l => l.Nodup)
    (fun a ha => nodup_insertNew a _ ha) _ _
    (List.nodup_singleton _)

theorem depth_le_objDependsOnCap (cap : Nat) (edges : List (String × String)) (target : String) :
    ∀ tr ∈ objDependsOnCap cap edges target, tr.2.2 ≤ cap := by
  apply iterate_inv (objStep edges cap) (fun l => ∀ tr ∈ l, tr.2.2 ≤ cap)
  · intro l hl tr htr
    rw [objStep, mem_insertNew] at htr
    rcases htr with htr | htr
    · exact hl tr htr
    · rcases List.mem_flatMap.mp htr with ⟨old, hold, hmem⟩
      split at hmem
      case isTrue hlt =>
        rcases List.mem_map.mp hmem with ⟨e, _, rfl⟩
        exact hlt
      case isFalse => exact absurd hmem (List.not_mem_nil _)
  · intro tr htr
    rcases List.mem_singleton.mp htr with rfl
    exact Nat.zero_le cap

theorem criticalEdgeOf_some (snap : Snapshot) (tr : MTriple) (e : CriticalPathRecord)
    (h : criticalEdgeOf snap tr = some e) :
    tr.1 ≠ tr.2.1 ∧ ∃ fn fp, frontierOf snap tr.2.2 = some fn
      ∧ frontierOf snap tr.2.1 = some fp ∧ fn < fp
      ∧ e = { probe_id := tr.1, source_id := tr.2.1, target_id := tr.2.2,
              source_name := objNameOf snap tr.2.1, target_name := objNameOf snap tr.2.2,
              source_type := objTypeOf snap tr.2.1, target_type := objTypeOf snap tr.2.2,
              lag_ms := fp - fn, lag_seconds := ((fp - fn : Int) : ℚ) / 1000 } := by
  unfold criticalEdgeOf at h
  split at h
  case isFalse => exact absurd h (by simp)
  case isTrue hne =>
    refine ⟨hne, ?_⟩
    split at h
    case h_2 => exact absurd h (by simp)
    case h_1 fn fp hfn hfp =>
      split at h
      case isFalse => exact absurd h (by simp)
      case isTrue hlt =>
        exact ⟨fn, fp, hfn, hfp, hlt, (Option.some.injEq _ _ ▸ h).symm⟩

theorem mem_criticalPaths (snap : Snapshot) (t : ℚ) (e : CriticalPathRecord) :
    e ∈ criticalPaths snap t ↔
      ∃ tr, tr ∈ monitorTriples snap t ∧ criticalEdgeOf snap tr = some e := by
  unfold criticalPaths
  rw [mem_sortBy, List.mem_filterMap]

theorem mem_dependencyChains (snap : Snapshot) (t : ℚ) (r : ChainRecord) :
    r ∈ dependencyChains snap t ↔
      ∃ tr, tr ∈ monitorTriples snap t ∧ tr.1 ≠ tr.2.2 ∧ r = toChainRecord snap tr := by
  unfold dependencyChains
  rw [mem_sortBy, List.mem_map]
  constructor
  · rintro ⟨tr, htr, rfl⟩
    rcases List.mem_filter.mp htr with ⟨h1, h2⟩
    exact ⟨tr, h1, by simpa using h2, rfl⟩
  · rintro ⟨tr, h1, h2, rfl⟩
    exact ⟨tr, List.mem_filter.mpr ⟨h1, by simpa using h2⟩, rfl⟩

theorem mem_dependencyChainOf (snap : Snapshot) (tid : String) (e : ChainEntry) :
    e ∈ dependencyChainOf snap tid ↔
      ∃ tr, tr ∈ objDependsOn (inputOf snap) tid ∧ tr.1 ≠ tr.2.1
        ∧ e = toChainEntry snap tr := by
  unfold dependencyChainOf chainRowsOf
  rw [List.mem_map]
  constructor
  · rintro ⟨tr, htr, rfl⟩
    rw [mem_sortBy] at htr
    rcases List.mem_filter.mp htr with ⟨h1, h2⟩
    exact ⟨tr, h1, by simpa using h2, rfl⟩
  · rintro ⟨tr, h1, h2, rfl⟩
    exact ⟨tr, (mem_sortBy _ _ _).mpr (List.mem_filter.mpr ⟨h1, by simpa using h2⟩), rfl⟩

theorem mem_targetChain (snap : Snapshot) (o : MzObject) (e : ChainEntry)
    (h : e ∈ targetChain snap o) :
    ∃ tid tr, tr ∈ objDependsOn (inputOf snap) tid ∧ tr.1 ≠ tr.2.1
      ∧ e = toChainEntry snap tr := by
  unfold targetChain at h
  split at h
  · exact absurd h (List.not_mem_nil _)
  · rcases (mem_dependencyChainOf snap _ e).mp h with ⟨tr, h1, h2, rfl⟩
    exact ⟨_, tr, h1, h2, rfl⟩

theorem nodeInfo_no_frontier (snap : Snapshot) (oid : String)
    (h : frontierOf snap oid = none) :
    (nodeInfoOf snap oid).lag_ms = 0 ∧ (nodeInfoOf snap oid).is_stale = false := by
  have hls : (lagSecondsOf snap oid).getD 0 = 0 := by
    rw [lagSecondsOf, h]
    rfl
  constructor
  · show (lagSecondsOf snap oid).getD 0 * 1000 = 0
    rw [hls]
    ring
  · show decide (100 < (lagSecondsOf snap oid).getD 0 * 1000) = false
    rw [hls]
    norm_num

theorem ofd_report_inv (snap : Snapshot) (object_name schema : String)
    (r : ObjectDiagnosticReport)
    (h : object_freshness_diagnostics snap object_name schema = .report r) :
    ∃ o, findTarget snap object_name schema = some o ∧ r = reportFor snap o := by
  rcases hft : findTarget snap object_name schema with _ | o
  · unfold object_freshness_diagnostics at h
    rw [hft] at h
    simp at h
  · unfold object_freshness_diagnostics at h
    rw [hft] at h
    simp only [OfdResult.report.injEq] at h
    exact ⟨o, rfl, h.symm⟩

/-- Claim C1: a critical-path edge source→target is emitted by
`monitor_data_freshness` only when the source's frontier strictly exceeds
the target's, its `lag_ms` is exactly the frontier difference, and no edge
is emitted for a pair whose frontiers are equal or inverted. -/
theorem critical_path_edges_lag_correct :
    (∀ snap t sf cf e, e ∈ (monitor_data_freshness snap t sf cf).critical_paths →
      ∃ fs ft, frontierOf snap e.source_id = some fs
        ∧ frontierOf snap e.target_id = some ft ∧ ft < fs ∧ e.lag_ms = fs - ft)
    ∧ ∀ snap t sf cf s tg fs ft, frontierOf snap s = some fs →
        frontierOf snap tg = some ft → fs ≤ ft →
        ∀ e ∈ (monitor_data_freshness snap t sf cf).critical_paths,
          ¬(e.source_id = s ∧ e.target_id = tg) := by
  have main : ∀ snap t (e : CriticalPathRecord), e ∈ criticalPaths snap t →
      ∃ fs ft, frontierOf snap e.source_id = some fs
        ∧ frontierOf snap e.target_id = some ft ∧ ft < fs ∧ e.lag_ms = fs - ft := by
    intro snap t e he
    rcases (mem_criticalPaths snap t e).mp he with ⟨tr, _, hce⟩
    rcases criticalEdgeOf_some snap tr e hce with ⟨_, fn, fp, hfn, hfp, hlt, rfl⟩
    exact ⟨fp, fn, hfp, hfn, hlt, rfl⟩
  constructor
  · intro snap t sf cf e he
    exact main snap t e he
  · intro snap t sf cf s tg fs ft hs htg hle e he hc
    rcases main snap t e he with ⟨fs', ft', hfs', hft', hlt, _⟩
    rw [hc.1, hs] at hfs'
    rw [hc.2, htg] at hft'
    injection hfs' with h1
    injection hft' with h2
    omega

unseal Rat.add Rat.mul Rat.inv Rat.sub in
/-- Claim C1 witness: on `snapCp` the emitted edge `u2 → u1` satisfies the
frontier characterisation. -/
theorem critical_path_edges_lag_correct_witness :
    ∃ fs ft, frontierOf snapCp cpRec.source_id = some fs
      ∧ frontierOf snapCp cpRec.target_id = some ft ∧ ft < fs ∧ cpRec.lag_ms = fs - ft :=
  critical_path_edges_lag_correct.1 snapCp 3 none none cpRec (by decide)

/-- Claim C9: a critical-path edge whose source is the probe object itself is
never emitted (`WHERE probe != prev`). -/
theorem critical_paths_source_ne_probe (snap : Snapshot) (t : ℚ) (sf cf : Option String)
    (e : CriticalPathRecord)
    (h : e ∈ (monitor_data_freshness snap t sf cf).critical_paths) :
    e.source_id ≠ e.probe_id := by
  rcases (mem_criticalPaths snap t e).mp h with ⟨tr, _, hce⟩
  rcases criticalEdgeOf_some snap tr e hce with ⟨hne, _, _, _, _, _, rfl⟩
  exact hne.symm

unseal Rat.add Rat.mul Rat.inv Rat.sub in
/-- Claim C9 witness: `snapCp` emits a critical-path edge, and its source
differs from its probe. -/
theorem critical_paths_source_ne_probe_witness :
    cpRec ∈ (monitor_data_freshness snapCp 3 none none).critical_paths
      ∧ cpRec.source_id ≠ cpRec.probe_id :=
  ⟨by decide, critical_paths_source_ne_probe snapCp 3 none none cpRec (by decide)⟩

/-- Claim C8: in every non-error single-object report,
`critical_path_lag_seconds` equals `max_lag_seconds`. -/
theorem critical_path_lag_equals_max_lag (snap : Snapshot) (object_name schema : String)
    (r : ObjectDiagnosticReport)
    (h : object_freshness_diagnostics snap object_name schema = .report r) :
    r.freshness_summary.critical_path_lag_seconds = r.freshness_summary.max_lag_seconds := by
  rcases ofd_report_inv snap object_name schema r h with ⟨o, _, rfl⟩
  rfl

unseal Rat.add Rat.mul Rat.inv Rat.sub in
/-- Claim C8 witness: the report for `snapNoFrontier` has equal critical-path
and maximum lags. -/
theorem critical_path_lag_equals_max_lag_witness :
    ∃ r, object_freshness_diagnostics snapNoFrontier "v" "public" = .report r
      ∧ r.freshness_summary.critical_path_lag_seconds = r.freshness_summary.max_lag_seconds := by
  have hb : (object_freshness_diagnostics snapNoFrontier "v" "public").isReport = true := by
    decide
  cases hr : object_freshness_diagnostics snapNoFrontier "v" "public" with
  | error m =>
    rw [hr] at hb
    exact absurd hb (by simp [OfdResult.isReport])
  | report r =>
    exact ⟨r, rfl, critical_path_lag_equals_max_lag snapNoFrontier "v" "public" r hr⟩

/-- Claim C10: in every non-error single-object report, `total_dependencies`
is the chain length, `stale_dependencies` counts exactly the entries whose
dependency side has `lag_ms > 100`, and so never exceeds the total. -/
theorem summary_counts_consistent (snap : Snapshot) (object_name schema : String)
    (r : ObjectDiagnosticReport)
    (h : object_freshness_diagnostics snap object_name schema = .report r) :
    r.freshness_summary.total_dependencies = r.dependency_chain.length
    ∧ r.freshness_summary.stale_dependencies
        = r.dependency_chain.countP (fun e => decide (100 < e.dependency.lag_ms))
    ∧ r.freshness_summary.stale_dependencies ≤ r.freshness_summary.total_dependencies := by
  rcases ofd_report_inv snap object_name schema r h with ⟨o, _, rfl⟩
  refine ⟨rfl, ?_, List.countP_le_length _⟩
  show (targetChain snap o).countP (fun e => e.dependency.is_stale)
    = (targetChain snap o).countP (fun e => decide (100 < e.dependency.lag_ms))
  apply List.countP_congr
  intro e he
  rcases mem_targetChain snap o e he with ⟨tid, tr, _, _, rfl⟩
  rfl

unseal Rat.add Rat.mul Rat.inv Rat.sub in
/-- Claim C10 witness: the summary of the report for `snapNoFrontier` is
consistent with its chain. -/
theorem summary_counts_consistent_witness :
    ∃ r, object_freshness_diagnostics snapNoFrontier "v" "public" = .report r
      ∧ r.freshness_summary.total_dependencies = r.dependency_chain.length
      ∧ r.freshness_summary.stale_dependencies ≤ r.freshness_summary.total_dependencies := by
  have hb : (object_freshness_diagnostics snapNoFrontier "v" "public").isReport = true := by
    decide
  cases hr : object_freshness_diagnostics snapNoFrontier "v" "public" with
  | error m =>
    rw [hr] at hb
    exact absurd hb (by simp [OfdResult.isReport])
  | report r =>
    have hs := summary_counts_consistent snapNoFrontier "v" "public" r hr
    exact ⟨r, rfl, hs.1, hs.2.2⟩

/-- Claim C5: when no object of the given name exists in the given schema,
the tool returns exactly the not-found error record. -/
theorem object_not_found_error (snap : Snapshot) (object_name schema : String)
    (h : ∀ o ∈ snap.objects,
      ¬(o.name = object_name ∧ schemaNameOf snap o.schema_id = some schema)) :
    object_freshness_diagnostics snap object_name schema
      = .error ("Object \x27" ++ object_name ++ "\x27 not found in schema \x27"
          ++ schema ++ "\x27") := by
  have hf : findTarget snap object_name schema = none := by
    rw [findTarget, List.find?_eq_none]
    intro o ho hc
    rw [Bool.and_eq_true, beq_iff_eq, beq_iff_eq] at hc
    exact h o ho hc
  unfold object_freshness_diagnostics
  rw [hf]

/-- Claim C5 witness: the lookup of `missing_view` in the empty snapshot
returns exactly the error record. -/
theorem object_not_found_error_witness :
    object_freshness_diagnostics snapEmpty "missing_view" "public"
      = .error ("Object \x27" ++ "missing_view" ++ "\x27 not found in schema \x27"
          ++ "public" ++ "\x27") :=
  object_not_found_error snapEmpty "missing_view" "public" (by simp [snapEmpty])

theorem probeCond_antitone (snap : Snapshot) (t1 t2 : ℚ) (h : t1 ≤ t2) (f : FrontierRow)
    (h2 : probeCond snap t2 f = true) : probeCond snap t1 f = true := by
  rw [probeCond, Bool.and_eq_true, Bool.and_eq_true, decide_eq_true_eq, decide_eq_true_eq] at h2 ⊢
  refine ⟨⟨h2.1.1, ?_⟩, h2.2⟩
  have hlt := h2.1.2
  nlinarith [hlt, h]

theorem laggingRowOf_antitone (snap : Snapshot) (sf cf : Option String) (t1 t2 : ℚ)
    (h : t1 ≤ t2) (f : FrontierRow) (r : LaggingObject)
    (hr : laggingRowOf snap t2 sf cf f = some r) :
    ∃ r2, laggingRowOf snap t1 sf cf f = some r2 ∧ r2.object_id = r.object_id := by
  rcases ho : snap.objects.find? (fun o => o.id == f.object_id) with _ | o
  · rw [laggingRowOf, ho] at hr
    exact absurd hr (by simp)
  rcases hs : snap.schemas.find? (fun s => s.id == o.schema_id) with _ | s
  · simp only [laggingRowOf, ho, hs] at hr
    exact absurd hr (by simp)
  simp only [laggingRowOf, ho, hs] at hr ⊢
  split at hr
  case isFalse => exact absurd hr (by simp)
  case isTrue hcond =>
    rw [Bool.and_eq_true, Bool.and_eq_true] at hcond
    have hcond1 : (probeCond snap t1 f && schemaFilterOk sf s.name
        && clusterFilterOk cf (clusterNameOf snap o.cluster_id)) = true := by
      rw [Bool.and_eq_true, Bool.and_eq_true]
      exact ⟨⟨probeCond_antitone snap t1 t2 h f hcond.1.1, hcond.1.2⟩, hcond.2⟩
    rw [Option.some.injEq] at hr
    subst hr
    rw [if_pos hcond1]
    exact ⟨_, rfl, rfl⟩

theorem length_filterMap_mono (g1 g2 : α → Option β) (l : List α)
    (h : ∀ a b, g2 a = some b → ∃ c, g1 a = some c) :
    (l.filterMap g2).length ≤ (l.filterMap g1).length := by
  induction l with
  | nil => simp
  | cons x xs ih =>
    rcases h2 : g2 x with _ | b
    · rcases h1 : g1 x with _ | c
      · simpa [List.filterMap_cons, h2, h1] using ih
      · simp only [List.filterMap_cons, h2, h1, List.length_cons]
        exact Nat.le_trans ih (Nat.le_succ _)
    · rcases h x b h2 with ⟨c, h1⟩
      simp only [List.filterMap_cons, h2, h1, List.length_cons]
      exact Nat.succ_le_succ ih

/-- Claim C6: raising `threshold_seconds` never adds an object to
`lagging_objects`, so the list's size never grows with the threshold. -/
theorem lagging_objects_threshold_antitone (snap : Snapshot) (sf cf : Option String)
    (t1 t2 : ℚ) (h : t1 ≤ t2) :
    (∀ r ∈ (monitor_data_freshness snap t2 sf cf).lagging_objects,
      ∃ r2 ∈ (monitor_data_freshness snap t1 sf cf).lagging_objects,
        r2.object_id = r.object_id)
    ∧ (monitor_data_freshness snap t2 sf cf).lagging_objects.length
        ≤ (monitor_data_freshness snap t1 sf cf).lagging_objects.length := by
  constructor
  · intro r hr
    rw [show (monitor_data_freshness snap t2 sf cf).lagging_objects
        = laggingObjects snap t2 sf cf from rfl, laggingObjects, mem_sortBy] at hr
    rcases List.mem_filterMap.mp hr with ⟨f, hf, hrow⟩
    rcases laggingRowOf_antitone snap sf cf t1 t2 h f r hrow with ⟨r2, hrow2, hid⟩
    refine ⟨r2, ?_, hid⟩
    rw [show (monitor_data_freshness snap t1 sf cf).lagging_objects
        = laggingObjects snap t1 sf cf from rfl, laggingObjects, mem_sortBy]
    exact List.mem_filterMap.mpr ⟨f, hf, hrow2⟩
  · show (laggingObjects snap t2 sf cf).length ≤ (laggingObjects snap t1 sf cf).length
    rw [laggingObjects, laggingObjects, length_sortBy, length_sortBy]
    apply length_filterMap_mono
    intro f r hrow
    rcases laggingRowOf_antitone snap sf cf t1 t2 h f r hrow with ⟨r2, hrow2, _⟩
    exact ⟨r2, hrow2⟩

unseal Rat.add Rat.mul Rat.inv Rat.sub in
/-- Claim C6 witness: on `snapCp`, the list at threshold 2 is no longer than
the list at threshold 1. -/
theorem lagging_objects_threshold_antitone_witness :
    (1 : ℚ) ≤ 2
    ∧ (monitor_data_freshness snapCp 2 none none).lagging_objects.length
        ≤ (monitor_data_freshness snapCp 1 none none).lagging_objects.length :=
  ⟨by norm_num, (lagging_objects_threshold_antitone snapCp none none 1 2 (by norm_num)).2⟩

/-- Claim C7: a referenced object with no frontier row degrades to lag 0 and
`is_stale = false`, and the single-object tool still returns a populated
report rather than failing. -/
theorem missing_frontier_graceful (snap : Snapshot) (object_name schema : String)
    (o : MzObject) (h : findTarget snap object_name schema = some o) :
    ∃ r, object_freshness_diagnostics snap object_name schema = .report r
      ∧ (frontierOf snap o.id = none →
          r.target_object.lag_ms = 0 ∧ r.target_object.is_stale = false)
      ∧ ∀ e ∈ r.dependency_chain,
          (frontierOf snap e.dependency.object_id = none →
            e.dependency.lag_ms = 0 ∧ e.dependency.is_stale = false)
          ∧ (frontierOf snap e.dependent.object_id = none →
            e.dependent.lag_ms = 0 ∧ e.dependent.is_stale = false) := by
  refine ⟨reportFor snap o, ?_, ?_, ?_⟩
  · unfold object_freshness_diagnostics
    rw [h]
  · intro hfr
    have hrow : targetFrontierRow snap o = none := by
      rw [frontierOf] at hfr
      exact Option.map_eq_none'.mp hfr
    have hlag : targetLagMs snap o = 0 := by
      simp [targetLagMs, targetLagSeconds, hrow]
    constructor
    · exact hlag
    · show decide (100 < targetLagMs snap o) = false
      rw [hlag]
      norm_num
  · intro e he
    rcases mem_targetChain snap o e he with ⟨tid, tr, _, _, rfl⟩
    exact ⟨fun hfr => nodeInfo_no_frontier snap tr.1 hfr,
           fun hfr => nodeInfo_no_frontier snap tr.2.1 hfr⟩

unseal Rat.add Rat.mul Rat.inv Rat.sub in
/-- Claim C7 witness: on `snapNoFrontier` (whose chain references the
frontier-less `u4`) the tool returns a populated report with the graceful
degradation guarantees. -/
theorem missing_frontier_graceful_witness :
    findTarget snapNoFrontier "v" "public" = some objViewV
    ∧ ∃ r, object_freshness_diagnostics snapNoFrontier "v" "public" = .report r
        ∧ (frontierOf snapNoFrontier objViewV.id = none →
            r.target_object.lag_ms = 0 ∧ r.target_object.is_stale = false)
        ∧ ∀ e ∈ r.dependency_chain,
            (frontierOf snapNoFrontier e.dependency.object_id = none →
              e.dependency.lag_ms = 0 ∧ e.dependency.is_stale = false)
            ∧ (frontierOf snapNoFrontier e.dependent.object_id = none →
              e.dependent.lag_ms = 0 ∧ e.dependent.is_stale = false) :=
  ⟨by decide, missing_frontier_graceful snapNoFrontier "v" "public" objViewV (by decide)⟩

theorem nodup_chainRowsOf (snap : Snapshot) (tid : String) : (chainRowsOf snap tid).Nodup :=
  nodup_sortBy _ _ ((nodup_objDependsOnCap 10 _ _).filter _)

theorem nodup_dependencyChains (snap : Snapshot) (t : ℚ) :
    (dependencyChains snap t).Nodup := by
  apply nodup_sortBy
  apply List.Nodup.map_on ?_ ((nodup_monitorDependsOn _ _).filter _)
  rintro ⟨a1, a2, a3⟩ - ⟨b1, b2, b3⟩ - hab
  simp only [toChainRecord, ChainRecord.mk.injEq] at hab
  obtain ⟨e1, e2, e3, -⟩ := hab
  simp [e1, e2, e3]

unseal Rat.add Rat.mul Rat.inv Rat.sub in
/-- Claim C3 counterexample: on `snapDiamond` the single-object chain holds
the pair (u1, u2) in two distinct entries (at depths 2 and 3), because the
query's `SELECT DISTINCT` covers the `depth` column as well. -/
theorem object_chain_pair_dedup_cex :
    (object_freshness_diagnostics snapDiamond "x" "public").chain.countP
      (fun e => e.dependency.object_id == "u1" && e.dependent.object_id == "u2") = 2 := by
  decide

/-- Claim C3 (amended): within one probe's chain, `monitor_data_freshness`
never repeats a (dependency_id, dependent_id) pair; the single-object tool
deduplicates only by (dependency_id, dependent_id, depth), so a pair can
recur at distinct depths but never within one depth. -/
theorem chain_pair_dedup_amended :
    (∀ snap t sf cf p,
      (((monitor_data_freshness snap t sf cf).dependency_chains.filter
          (fun r => r.probe_id == p)).map
        (fun r => (r.dependency_id, r.dependent_id))).Nodup)
    ∧ ∀ snap object_name schema r,
        object_freshness_diagnostics snap object_name schema = .report r →
        (r.dependency_chain.map
          (fun e => (e.dependency.object_id, e.dependent.object_id, e.depth))).Nodup := by
  constructor
  · intro snap t sf cf p
    apply List.Nodup.map_on ?_ ((nodup_dependencyChains snap t).filter _)
    intro x hx y hy hxy
    rcases List.mem_filter.mp hx with ⟨hxc, hxp⟩
    rcases List.mem_filter.mp hy with ⟨hyc, hyp⟩
    rcases (mem_dependencyChains snap t x).mp hxc with ⟨tx, -, -, rfl⟩
    rcases (mem_dependencyChains snap t y).mp hyc with ⟨ty, -, -, rfl⟩
    have h1 : tx.1 = p := by simpa [toChainRecord] using hxp
    have h2 : ty.1 = p := by simpa [toChainRecord] using hyp
    have hpair : tx.2.1 = ty.2.1 ∧ tx.2.2 = ty.2.2 := by
      simpa [toChainRecord, Prod.ext_iff] using hxy
    have : tx = ty := by
      rcases tx with ⟨x1, x2, x3⟩
      rcases ty with ⟨y1, y2, y3⟩
      simp_all
    rw [this]
  · intro snap object_name schema r h
    rcases ofd_report_inv snap object_name schema r h with ⟨o, -, rfl⟩
    show ((targetChain snap o).map _).Nodup
    unfold targetChain
    split
    · simp
    · show (((chainRowsOf snap _).map (toChainEntry snap)).map _).Nodup
      rw [List.map_map]
      have hid : ((fun e : ChainEntry =>
          (e.dependency.object_id, e.dependent.object_id, e.depth)) ∘ toChainEntry snap)
          = fun tr => tr := rfl
      rw [hid]
      simpa using nodup_chainRowsOf snap _

unseal Rat.add Rat.mul Rat.inv Rat.sub in
/-- Claim C3 witness: the report for `snapDiamond` has a chain whose
(dependency, dependent, depth) keys are pairwise distinct. -/
theorem chain_pair_dedup_amended_witness :
    ∃ r, object_freshness_diagnostics snapDiamond "x" "public" = .report r
      ∧ (r.dependency_chain.map
          (fun e => (e.dependency.object_id, e.dependent.object_id, e.depth))).Nodup := by
  have hb : (object_freshness_diagnostics snapDiamond "x" "public").isReport = true := by
    decide
  cases hr : object_freshness_diagnostics snapDiamond "x" "public" with
  | error m =>
    rw [hr] at hb
    exact absurd hb (by simp [OfdResult.isReport])
  | report r =>
    exact ⟨r, rfl, chain_pair_dedup_amended.2 snapDiamond "x" "public" r hr⟩

unseal Rat.add Rat.mul Rat.inv Rat.sub in
/-- Claim C2 counterexample: the monitor tool has no depth cap.  On a
twelve-edge linear chain it emits the chain row u1 → u2, which arises only at
depth 12 of the depth-instrumented traversal and at no depth at all of the
depth-10-capped traversal the single-object tool uses. -/
theorem monitor_chain_depth_cap_cex :
    chainRec12 ∈ (monitor_data_freshness snapChain12 3 none none).dependency_chains
    ∧ (objDependsOnCap 20 (inputOf snapChain12) "u13").filter
        (fun tr => tr.1 == "u1" && tr.2.1 == "u2") = [("u1", "u2", 12)]
    ∧ (objDependsOn (inputOf snapChain12) "u13").all
        (fun tr => !(tr.1 == "u1" && tr.2.1 == "u2")) = true :=
  ⟨by decide, by decide, by decide⟩

unseal Rat.add Rat.mul Rat.inv Rat.sub in
/-- Claim C2 (amended): single-object chain entries never exceed depth 10;
the monitor traversal carries no depth bound, yet both traversals reach their
fixpoints even on the synthetic cycle u1 → u2 → u3 → u1. -/
theorem chain_depth_cap_amended :
    (∀ snap object_name schema r,
      object_freshness_diagnostics snap object_name schema = .report r →
      ∀ e ∈ r.dependency_chain, e.depth ≤ 10)
    ∧ monitorStep (inputOf snapCyc) (monitorTriples snapCyc 3) = monitorTriples snapCyc 3
    ∧ objStep (inputOf snapCyc) 10 (objDependsOn (inputOf snapCyc) "u1")
        = objDependsOn (inputOf snapCyc) "u1" := by
  refine ⟨?_, by decide, by decide⟩
  intro snap object_name schema r h e he
  rcases ofd_report_inv snap object_name schema r h with ⟨o, -, rfl⟩
  rcases mem_targetChain snap o e he with ⟨tid, tr, htr, -, rfl⟩
  exact depth_le_objDependsOnCap 10 (inputOf snap) tid tr htr

unseal Rat.add Rat.mul Rat.inv Rat.sub in
/-- Claim C2 witness: the report for `snapDiamond` respects the depth cap. -/
theorem chain_depth_cap_amended_witness :
    ∃ r, object_freshness_diagnostics snapDiamond "x" "public" = .report r
      ∧ ∀ e ∈ r.dependency_chain, e.depth ≤ 10 := by
  have hb : (object_freshness_diagnostics snapDiamond "x" "public").isReport = true := by
    decide
  cases hr : object_freshness_diagnostics snapDiamond "x" "public" with
  | error m =>
    rw [hr] at hb
    exact absurd hb (by simp [OfdResult.isReport])
  | report r =>
    exact ⟨r, rfl, fun e he =>
      chain_depth_cap_amended.1 snapDiamond "x" "public" r hr e he⟩

unseal Rat.add Rat.mul Rat.inv Rat.sub in
/-- Claim C4 counterexample: on the spec scenario the code emits no
dependency-chain entry and no critical-path edge at all, contradicting the
expected (Source, ViewA) chain entry and Source→ViewA critical path. -/
theorem scenario_report_cex :
    (monitor_data_freshness snapScenario (1/10) none none).dependency_chains = []
    ∧ (monitor_data_freshness snapScenario (1/10) none none).critical_paths = [] :=
  ⟨by decide, by decide⟩

unseal Rat.add Rat.mul Rat.inv Rat.sub in
/-- Claim C4 (amended): on the scenario, Source and ViewA are flagged lagging
(in descending lag order), ViewB is not, and both the dependency-chain and
critical-path lists are empty: the chain query drops edges whose dependent is
the probe (`WHERE probe != next`), and the critical-path filter
`fp.write_frontier > fn.write_frontier` fails because frontier(Source) <
frontier(ViewA). -/
theorem scenario_report_amended :
    (monitor_data_freshness snapScenario (1/10) none none).lagging_objects.map
      (fun r => r.object_id) = ["u1", "u2"]
    ∧ ((monitor_data_freshness snapScenario (1/10) none none).lagging_objects.all
        (fun r => r.object_id != "u3")) = true
    ∧ (monitor_data_freshness snapScenario (1/10) none none).dependency_chains = []
    ∧ (monitor_data_freshness snapScenario (1/10) none none).critical_paths = [] :=
  ⟨by decide, by decide, by decide, by decide⟩
